import Mathlib

/-!
# DASH sensor HAL: motion demultiplexing driver and dispatch shim

A shallow embedding of `sensors/bma250na_motion.c` and `sensors_module.c`.

* C `int` values are `Int`; the code performs no arithmetic on them, only
  comparisons with constants, so no overflow can occur.
* The global queue fed by `sensors_fifo_put` is the list of events handed to
  it, oldest first.
* `get_current_nano_time` is a clock oracle `time : Nat → Int`: the value
  returned by the n-th call since start.
* `open_input_dev_by_name` is an outcome supplied with each call: a negative
  number when the open fails, the new descriptor otherwise.
* `sysfs.write_int` is a log of `(attribute, value)` writes, oldest first.
-/

namespace Dash

/-! ## Constants -/

/-- Event type `EV_SYN` of `linux/input.h`. -/
def EV_SYN : Int := 0

/-- Event type `EV_ABS` of `linux/input.h`. -/
def EV_ABS : Int := 3

/-- Error number `EINVAL` of `errno.h`. -/
def EINVAL : Int := 22

/-- Sensor type `SENSOR_TYPE_SIGNIFICANT_MOTION` of `hardware/sensors.h`. -/
def SENSOR_TYPE_SIGNIFICANT_MOTION : Int := 17

/-- Sensor type `SENSOR_TYPE_PICK_UP_GESTURE` of `hardware/sensors.h`. -/
def SENSOR_TYPE_PICK_UP_GESTURE : Int := 25

/-- First enumerator of the anonymous enum in `bma250na_motion.c`. -/
def BMA250_MOTION_TAP : Int := 0

/-- Second enumerator of the anonymous enum in `bma250na_motion.c`. -/
def BMA250_MOTION_SLOPE : Int := 1

/-- Third enumerator of the anonymous enum in `bma250na_motion.c`. -/
def BMA250_MOTION_LOW_G : Int := 2

/-- Fourth enumerator of the anonymous enum in `bma250na_motion.c`. -/
def BMA250_MOTION_HIGH_G : Int := 3

/-! ## Data model -/

/-- The fields of `struct input_event` the driver reads. -/
structure input_event where
  type : Int
  code : Int
  value : Int
deriving DecidableEq, Repr

/-- The fields of `sensors_event_t` the driver fills in; `data0` is `data[0]`,
whose only value here, the float `1.0`, is written as the integer `1`.
The remaining fields stay zero from the `memset`. -/
structure sensors_event_t where
  sensor : Int
  type : Int
  version : Int
  timestamp : Int
  data0 : Int
deriving DecidableEq, Repr

/-- The fields of `struct sensor_t` the driver reads. -/
structure sensor_t where
  handle : Int
  type : Int
  version : Int
deriving DecidableEq, Repr

/-- The per-sensor block `struct sensor_desc`. -/
structure sensor_desc where
  sensor : sensor_t
  motion : Int
  init : Int
  active : Int
deriving DecidableEq, Repr

/-- Modelled from the spec: the poll/select worker of `sensors_select.c`,
which is not part of the sources at hand. `fd` is the bound source handle
(negative when unbound), `running` tells whether reads are armed, `inits`
counts the calls of `sensors_select_init` and `destroys` those of `destroy`. -/
structure sensors_select_t where
  fd : Int
  running : Bool
  inits : Nat
  destroys : Nat
deriving DecidableEq, Repr

/-- Modelled from the spec: the configuration writer of `sensors_sysfs.c`,
which is not part of the sources at hand. `inits` counts the calls of
`sensors_sysfs_init`, `writes` logs every `write_int`, oldest first. -/
structure sensors_sysfs_t where
  inits : Nat
  writes : List (String × Int)
deriving DecidableEq, Repr

/-- The shared block `struct bma250_motion_sensor_composition` (the mutex is
not represented: every operation below runs to completion). -/
structure bma250_motion_sensor_composition where
  pickup : sensor_desc
  significant : sensor_desc
  select_worker : sensors_select_t
  sysfs : sensors_sysfs_t
deriving DecidableEq, Repr

/-- Which of the two blocks of the composition a `struct sensor_api_t *`
points into (the result of `container_of`). -/
inductive which where
  | pickup
  | significant
deriving DecidableEq, Repr

/-- The driver together with the two globals it talks to: the event queue and
the number of clock reads made so far. -/
structure driver_state where
  sc : bma250_motion_sensor_composition
  fifo : List sensors_event_t
  ticks : Nat
deriving DecidableEq, Repr

/-- Constants of `sensors_id.h` and the size of `sensors_event_t`, which the
static initialiser of the composition uses. -/
structure sensors_id where
  SENSOR_PICK_UP_GESTURE_HANDLE : Int
  SENSOR_SIGNIFICANT_MOTION_HANDLE : Int
  sizeof_sensors_event_t : Int
deriving DecidableEq, Repr

/-! ## Worker and sysfs operations -/

/-- Modelled from the spec: `sensors_select_init(&w, reader, ctx, fd)` of
`sensors_select.c` constructs the worker bound to `fd`, not yet reading. -/
def sensors_select_init (w : sensors_select_t) (fd : Int) : sensors_select_t :=
  { w with fd := fd, running := false, inits := w.inits + 1 }

/-- Modelled from the spec: `get_fd` of `sensors_select.c` returns the bound
handle or the unbound sentinel. -/
def sensors_select_get_fd (w : sensors_select_t) : Int := w.fd

/-- Modelled from the spec: `set_fd` of `sensors_select.c` installs a new
source. -/
def sensors_select_set_fd (w : sensors_select_t) (fd : Int) : sensors_select_t :=
  { w with fd := fd }

/-- Modelled from the spec: `resume` of `sensors_select.c` re-arms reading. -/
def sensors_select_resume (w : sensors_select_t) : sensors_select_t :=
  { w with running := true }

/-- Modelled from the spec: `suspend` of `sensors_select.c` stops reads. -/
def sensors_select_suspend (w : sensors_select_t) : sensors_select_t :=
  { w with running := false }

/-- Modelled from the spec: `destroy` of `sensors_select.c` releases the
worker thread. -/
def sensors_select_destroy (w : sensors_select_t) : sensors_select_t :=
  { w with running := false, destroys := w.destroys + 1 }

/-- Modelled from the spec: `sensors_sysfs_init` of `sensors_sysfs.c`. -/
def sensors_sysfs_init (y : sensors_sysfs_t) : sensors_sysfs_t :=
  { y with inits := y.inits + 1 }

/-- Modelled from the spec: `write_int` of `sensors_sysfs.c`, a single-integer
write to a named control. -/
def sensors_sysfs_write_int (y : sensors_sysfs_t) (attr : String) (value : Int) :
    sensors_sysfs_t :=
  { y with writes := y.writes ++ [(attr, value)] }

/-! ## The motion driver -/

/-- Read the block `d` of the composition. -/
def get_desc (sc : bma250_motion_sensor_composition) : which → sensor_desc
  | .pickup => sc.pickup
  | .significant => sc.significant

/-- Replace the block `d` of the composition. -/
def set_desc (sc : bma250_motion_sensor_composition) (d : which) (x : sensor_desc) :
    bma250_motion_sensor_composition :=
  match d with
  | .pickup => { sc with pickup := x }
  | .significant => { sc with significant := x }

/-- The static object `bma250_motion`: the two descriptors as initialised,
every other member zero (static storage). -/
def bma250_motion (ids : sensors_id) : bma250_motion_sensor_composition :=
  { pickup :=
      { sensor :=
          { handle := ids.SENSOR_PICK_UP_GESTURE_HANDLE
            type := SENSOR_TYPE_PICK_UP_GESTURE
            version := ids.sizeof_sensors_event_t }
        motion := 0, init := 0, active := 0 }
    significant :=
      { sensor :=
          { handle := ids.SENSOR_SIGNIFICANT_MOTION_HANDLE
            type := SENSOR_TYPE_SIGNIFICANT_MOTION
            version := ids.sizeof_sensors_event_t }
        motion := 0, init := 0, active := 0 }
    select_worker := { fd := 0, running := false, inits := 0, destroys := 0 }
    sysfs := { inits := 0, writes := [] } }

/-- Function `bma250_motion_init`; `fd` is the outcome of the probe
`open_input_dev_by_name`. Returns the status and the new composition. -/
def bma250_motion_init (sc : bma250_motion_sensor_composition) (d : which) (fd : Int) :
    Int × bma250_motion_sensor_composition :=
  let init : Bool := decide (sc.pickup.init ≠ 0) || decide (sc.significant.init ≠ 0)
  let sc := set_desc sc d { get_desc sc d with init := 1 }
  if fd < 0 then (-1, sc)
  else if init then (0, sc)
  else
    (0, { sc with
            sysfs := sensors_sysfs_init sc.sysfs
            select_worker := sensors_select_init sc.select_worker (-1) })

/-- Function `bma250_motion_internal_activate`. -/
def bma250_motion_internal_activate (sc : bma250_motion_sensor_composition) (d : which)
    (enable : Int) : bma250_motion_sensor_composition :=
  let sc := set_desc sc d { get_desc sc d with motion := 0, active := enable }
  if (get_desc sc d).sensor.type = SENSOR_TYPE_PICK_UP_GESTURE then
    { sc with sysfs := sensors_sysfs_write_int sc.sysfs "high_g_mode"
                (if enable ≠ 0 then 0x72 else 0x00) }
  else if (get_desc sc d).sensor.type = SENSOR_TYPE_SIGNIFICANT_MOTION then
    { sc with sysfs := sensors_sysfs_write_int sc.sysfs "slope_mode"
                (if enable ≠ 0 then 0x37 else 0x00) }
  else sc

/-- Function `bma250_motion_activate`; `opened` is the outcome of
`open_input_dev_by_name`, consulted only when the open is attempted. -/
def bma250_motion_activate (sc : bma250_motion_sensor_composition) (d : which)
    (enable : Int) (opened : Int) : Int × bma250_motion_sensor_composition :=
  let fd := sensors_select_get_fd sc.select_worker
  let sc := bma250_motion_internal_activate sc d enable
  if enable ≠ 0 ∧ fd < 0 then
    let fd := opened
    if fd < 0 then (-1, sc)
    else
      (0, { sc with select_worker :=
              sensors_select_resume (sensors_select_set_fd sc.select_worker fd) })
  else if enable = 0 ∧ fd > 0 then
    if sc.pickup.active = 0 ∧ sc.significant.active = 0 then
      (0, { sc with select_worker :=
              sensors_select_set_fd (sensors_select_suspend sc.select_worker) (-1) })
    else (0, sc)
  else (0, sc)

/-- Function `bma250_motion_set_delay`. -/
def bma250_motion_set_delay (sc : bma250_motion_sensor_composition) (_d : which)
    (_ns : Int) : Int × bma250_motion_sensor_composition :=
  (0, sc)

/-- Function `bma250_motion_close`. -/
def bma250_motion_close (sc : bma250_motion_sensor_composition) (d : which) :
    bma250_motion_sensor_composition :=
  let sc := set_desc sc d { get_desc sc d with init := 0 }
  if sc.pickup.init = 0 ∧ sc.significant.init = 0 then
    { sc with select_worker := sensors_select_destroy sc.select_worker }
  else sc

/-- The report block of the `EV_SYN` case of `bma250_motion_read` for the
block `d`: when armed and triggered, self-disarm, then fill the event and hand
it to `sensors_fifo_put`. -/
def bma250_motion_report (time : Nat → Int) (s : driver_state) (d : which) :
    driver_state :=
  if (get_desc s.sc d).active ≠ 0 ∧ (get_desc s.sc d).motion ≠ 0 then
    let sc := bma250_motion_internal_activate s.sc d 0
    let sd : sensors_event_t :=
      { sensor := (get_desc sc d).sensor.handle
        type := (get_desc sc d).sensor.type
        version := (get_desc sc d).sensor.version
        timestamp := time s.ticks
        data0 := 1 }
    { sc := sc, fifo := s.fifo ++ [sd], ticks := s.ticks + 1 }
  else s

/-- The body of the `while` loop of `bma250_motion_read`: the decode step for
one raw event. -/
def bma250_motion_decode (time : Nat → Int) (s : driver_state) (event : input_event) :
    driver_state :=
  if event.type = EV_ABS then
    if event.value = BMA250_MOTION_HIGH_G then
      { s with sc := { s.sc with pickup := { s.sc.pickup with motion := 1 } } }
    else if event.value = BMA250_MOTION_SLOPE then
      { s with sc := { s.sc with significant := { s.sc.significant with motion := 1 } } }
    else s
  else if event.type = EV_SYN then
    bma250_motion_report time (bma250_motion_report time s .pickup) .significant
  else s

/-- Function `bma250_motion_read`: the decode step applied to the raw events
that `read` delivers, in order. -/
def bma250_motion_read (time : Nat → Int) (s : driver_state) (events : List input_event) :
    driver_state :=
  events.foldl (bma250_motion_decode time) s

/-! ## Runs of the driver -/

/-- The raw event that arms the report of block `d`: an `EV_ABS` event whose
value is the signature tested for `d` in `bma250_motion_read`. -/
def is_trigger (d : which) (event : input_event) : Prop :=
  match d with
  | .pickup => event.type = EV_ABS ∧ event.value = BMA250_MOTION_HIGH_G
  | .significant => event.type = EV_ABS ∧ event.value = BMA250_MOTION_SLOPE

instance (d : which) (event : input_event) : Decidable (is_trigger d event) := by
  cases d <;> (unfold is_trigger; exact inferInstance)

/-- One thing that can happen to the driver: a caller invokes
`bma250_motion_activate` (with the outcome `opened` of the device open), or
the worker decodes one raw event inside `bma250_motion_read`. -/
inductive driver_step where
  | activate (d : which) (enable : Int) (opened : Int)
  | decode (event : input_event)
deriving DecidableEq, Repr

/-- Effect of one step. An activate step is a whole call of
`bma250_motion_activate` that runs with no decode step in between (`tstep`
below cuts a call into its statements); its status is dropped. -/
def step (time : Nat → Int) (s : driver_state) : driver_step → driver_state
  | .activate d enable opened =>
      { s with sc := (bma250_motion_activate s.sc d enable opened).2 }
  | .decode event => bma250_motion_decode time s event

/-- Effect of a sequence of steps, first step first. -/
def run (time : Nat → Int) (s : driver_state) (steps : List driver_step) : driver_state :=
  steps.foldl (step time) s

/-- The initial driver state: both sensors inactive, both motion flags 0,
worker unbound (source handle -1). -/
def is_initial (s : driver_state) : Prop :=
  s.sc.pickup.active = 0 ∧ s.sc.significant.active = 0 ∧
  s.sc.pickup.motion = 0 ∧ s.sc.significant.motion = 0 ∧
  s.sc.select_worker.fd = -1

instance (s : driver_state) : Decidable (is_initial s) := by
  unfold is_initial; exact inferInstance

/-- The events pushed to the queue between an earlier state and a later one. -/
def pushed (s s' : driver_state) : List sensors_event_t :=
  s'.fifo.drop s.fifo.length

/-- The events of a list that carry the handle of block `d` of `sc`. -/
def events_of (sc : bma250_motion_sensor_composition) (d : which)
    (es : List sensors_event_t) : List sensors_event_t :=
  es.filter (fun e => decide (e.sensor = (get_desc sc d).sensor.handle))

/-- The restriction of a run to one sensor `d` without its trigger: an
activate step addresses `d`, a decode step takes an event that is not a
trigger of `d`. -/
def untriggered (d : which) : driver_step → Prop
  | .activate d' _ _ => d' = d
  | .decode event => ¬ is_trigger d event

instance (d : which) (st : driver_step) : Decidable (untriggered d st) := by
  cases st <;> (unfold untriggered; exact inferInstance)

/-- The event that the report block builds for block `d` when the clock
returns `t`. -/
def report_event (sc : bma250_motion_sensor_composition) (d : which) (t : Int) :
    sensors_event_t :=
  { sensor := (get_desc sc d).sensor.handle
    type := (get_desc sc d).sensor.type
    version := (get_desc sc d).sensor.version
    timestamp := t
    data0 := 1 }

/-- The writes that `bma250_motion_internal_activate` adds to the sysfs log. -/
def mode_writes (sc : bma250_motion_sensor_composition) (d : which) (enable : Int) :
    List (String × Int) :=
  (bma250_motion_internal_activate sc d enable).sysfs.writes.drop sc.sysfs.writes.length

/-- The device open of an activate step succeeds (any non-negative
descriptor); a decode step opens nothing. -/
def open_succeeds : driver_step → Prop
  | .activate _ _ opened => 0 ≤ opened
  | .decode _ => True

instance (st : driver_step) : Decidable (open_succeeds st) := by
  cases st <;> (unfold open_succeeds; exact inferInstance)

/-- The device open of an activate step returns a positive descriptor; a
decode step opens nothing. -/
def open_positive : driver_step → Prop
  | .activate _ _ opened => 0 < opened
  | .decode _ => True

instance (st : driver_step) : Decidable (open_positive st) := by
  cases st <;> (unfold open_positive; exact inferInstance)

/-- A state right after the static initialiser and one successful
`bma250_motion_init` of each sensor, with an empty queue. -/
def boot (ids : sensors_id) : driver_state :=
  { sc := (bma250_motion_init (bma250_motion_init (bma250_motion ids) .pickup 3).2
            .significant 3).2
    fifo := []
    ticks := 0 }

/-- Sample values for the constants of `sensors_id.h`. -/
def sample_ids : sensors_id :=
  { SENSOR_PICK_UP_GESTURE_HANDLE := 21
    SENSOR_SIGNIFICANT_MOTION_HANDLE := 22
    sizeof_sensors_event_t := 104 }

/-- A sample clock: the n-th read returns `1000 * n`. -/
def sample_time (n : Nat) : Int := 1000 * n

/-- A sample state: after boot both sensors were activated, the device open
returning descriptor 5. -/
def sample_armed : driver_state :=
  run sample_time (boot sample_ids) [.activate .pickup 1 5, .activate .significant 1 5]

/-! ## An activate call interleaved with the worker

`bma250_motion_read` holds `sc->lock` around its loop, `bma250_motion_activate`
takes no lock: the statements of an activate call running on a caller's thread
can be separated by decode steps of the worker. Below, one activate call at a
time is in progress, cut at its accesses to the shared flags. -/

/-- The statement `d->motion = 0` of `bma250_motion_internal_activate`. -/
def internal_activate_store_motion (sc : bma250_motion_sensor_composition) (d : which) :
    bma250_motion_sensor_composition :=
  set_desc sc d { get_desc sc d with motion := 0 }

/-- The statement `d->active = enable` of `bma250_motion_internal_activate`. -/
def internal_activate_store_active (sc : bma250_motion_sensor_composition) (d : which)
    (enable : Int) : bma250_motion_sensor_composition :=
  set_desc sc d { get_desc sc d with active := enable }

/-- The `switch` statement of `bma250_motion_internal_activate`: the write of
the hardware mode. -/
def internal_activate_write_mode (sc : bma250_motion_sensor_composition) (d : which)
    (enable : Int) : bma250_motion_sensor_composition :=
  if (get_desc sc d).sensor.type = SENSOR_TYPE_PICK_UP_GESTURE then
    { sc with sysfs := sensors_sysfs_write_int sc.sysfs "high_g_mode"
                (if enable ≠ 0 then 0x72 else 0x00) }
  else if (get_desc sc d).sensor.type = SENSOR_TYPE_SIGNIFICANT_MOTION then
    { sc with sysfs := sensors_sysfs_write_int sc.sysfs "slope_mode"
                (if enable ≠ 0 then 0x37 else 0x00) }
  else sc

/-- The statements of `bma250_motion_activate` that follow the call of
`bma250_motion_internal_activate`: the `if`/`else if` on the worker and the
`return`; `fd` is the local variable read from `get_fd` on entry. -/
def activate_manage_worker (sc : bma250_motion_sensor_composition) (fd enable opened : Int) :
    Int × bma250_motion_sensor_composition :=
  if enable ≠ 0 ∧ fd < 0 then
    let fd := opened
    if fd < 0 then (-1, sc)
    else
      (0, { sc with select_worker :=
              sensors_select_resume (sensors_select_set_fd sc.select_worker fd) })
  else if enable = 0 ∧ fd > 0 then
    if sc.pickup.active = 0 ∧ sc.significant.active = 0 then
      (0, { sc with select_worker :=
              sensors_select_set_fd (sensors_select_suspend sc.select_worker) (-1) })
    else (0, sc)
  else (0, sc)

/-- The statement an activate call in progress executes next. -/
inductive activate_pc where
  | store_motion
  | store_active
  | write_mode
  | manage_worker
deriving DecidableEq, Repr

/-- An activate call in progress on a caller's thread: its arguments, its
local variable `fd` and the statement it executes next. -/
structure activate_call where
  d : which
  enable : Int
  fd : Int
  pc : activate_pc
deriving DecidableEq, Repr

/-- The driver state together with the activate call in progress, if any. -/
structure threaded_state where
  st : driver_state
  call : Option activate_call
deriving DecidableEq, Repr

/-- One thing that can happen when the caller's thread and the worker run side
by side: the caller enters `bma250_motion_activate` (reading `fd`), the call in
progress executes its next statement (`opened` is the outcome of the device
open, consulted by the last statement only), or the worker decodes one raw
event. -/
inductive threaded_step where
  | enter (d : which) (enable : Int)
  | advance (opened : Int)
  | decode (event : input_event)
deriving DecidableEq, Repr

/-- Effect of one step. Entering while a call is in progress and advancing
while none is do nothing; the status of the call is dropped. -/
def tstep (time : Nat → Int) (t : threaded_state) : threaded_step → threaded_state
  | .enter d enable =>
      match t.call with
      | some _ => t
      | none =>
          { st := t.st
            call := some ⟨d, enable, sensors_select_get_fd t.st.sc.select_worker,
              .store_motion⟩ }
  | .advance opened =>
      match t.call with
      | none => t
      | some c =>
          match c.pc with
          | .store_motion =>
              { st := { t.st with sc := internal_activate_store_motion t.st.sc c.d }
                call := some { c with pc := .store_active } }
          | .store_active =>
              { st := { t.st with sc := internal_activate_store_active t.st.sc c.d c.enable }
                call := some { c with pc := .write_mode } }
          | .write_mode =>
              { st := { t.st with sc := internal_activate_write_mode t.st.sc c.d c.enable }
                call := some { c with pc := .manage_worker } }
          | .manage_worker =>
              { st := { t.st with
                          sc := (activate_manage_worker t.st.sc c.fd c.enable opened).2 }
                call := none }
  | .decode event => { t with st := bma250_motion_decode time t.st event }

/-- Effect of a sequence of steps, first step first. -/
def trun (time : Nat → Int) (t : threaded_state) (steps : List threaded_step) :
    threaded_state :=
  steps.foldl (tstep time) t

/-- An activate call on `d` is in progress between its two stores: it has
executed `d->motion = 0` and not yet `d->active = enable`. -/
def between_stores (t : threaded_state) (d : which) : Prop :=
  match t.call with
  | some c => c.d = d ∧ c.pc = .store_active
  | none => False

instance (t : threaded_state) (d : which) : Decidable (between_stores t d) := by
  unfold between_stores
  split <;> exact inferInstance

/-- In state `t` the step does not decode a trigger of a sensor that is
inactive or that an activate call is re-arming or disarming right now (between
its two stores). -/
def trigger_allowed (t : threaded_state) : threaded_step → Prop
  | .enter _ _ => True
  | .advance _ => True
  | .decode event =>
      ∀ d, is_trigger d event → (get_desc t.st.sc d).active ≠ 0 ∧ ¬ between_stores t d

instance (t : threaded_state) (st : threaded_step) : Decidable (trigger_allowed t st) := by
  cases st with
  | enter d enable => exact isTrue trivial
  | advance opened => exact isTrue trivial
  | decode event =>
    unfold trigger_allowed
    exact decidable_of_iff
      ((is_trigger .pickup event →
          (get_desc t.st.sc .pickup).active ≠ 0 ∧ ¬ between_stores t .pickup) ∧
        (is_trigger .significant event →
          (get_desc t.st.sc .significant).active ≠ 0 ∧ ¬ between_stores t .significant))
      ⟨fun h d => by cases d; exact h.1; exact h.2, fun h => ⟨h .pickup, h .significant⟩⟩

/-- Along the run from `t`, a trigger of a sensor is decoded only while that
sensor is active and no activate call on it is between its two stores. -/
def triggers_while_active (time : Nat → Int) (t : threaded_state) :
    List threaded_step → Prop
  | [] => True
  | st :: rest => trigger_allowed t st ∧ triggers_while_active time (tstep time t st) rest

/-! ## The dispatch shim of `sensors_module.c` -/

/-- A call through a `struct sensor_api_t` function pointer, as recorded in
the call log. -/
inductive api_call where
  | init
  | activate (enable : Int)
  | set_delay (ns : Int)
  | close
deriving DecidableEq, Repr

/-- The operation set `struct sensor_api_t` over a driver state `σ`. -/
structure sensor_api_t (σ : Type) where
  init : σ → Int × σ
  activate : Int → σ → Int × σ
  set_delay : Int → σ → Int × σ
  close : σ → σ

/-- What the shim acts on: the state of the drivers and the log of calls made
through operation sets, each with the handle whose lookup produced the
operation set, oldest first. -/
structure hal_state (σ : Type) where
  drivers : σ
  calls : List (Int × api_call)

/-- The call `api->activate(api, enabled)`, logged. -/
def call_activate {σ : Type} (handle : Int) (api : sensor_api_t σ) (enabled : Int)
    (w : hal_state σ) : Int × hal_state σ :=
  let r := api.activate enabled w.drivers
  (r.1, { drivers := r.2, calls := w.calls ++ [(handle, .activate enabled)] })

/-- The call `api->set_delay(api, ns)`, logged. -/
def call_set_delay {σ : Type} (handle : Int) (api : sensor_api_t σ) (ns : Int)
    (w : hal_state σ) : Int × hal_state σ :=
  let r := api.set_delay ns w.drivers
  (r.1, { drivers := r.2, calls := w.calls ++ [(handle, .set_delay ns)] })

/-- Function `sensors_module_set_delay`; `lookup` is
`sensors_list_get_api_from_handle`, with `none` for the null pointer. -/
def sensors_module_set_delay {σ : Type} (lookup : Int → Option (sensor_api_t σ))
    (handle : Int) (ns : Int) (w : hal_state σ) : Int × hal_state σ :=
  match lookup handle with
  | none => (-1, w)
  | some api => call_set_delay handle api ns w

/-- Function `sensors_module_activate`; `lookup` is
`sensors_list_get_api_from_handle`, with `none` for the null pointer. -/
def sensors_module_activate {σ : Type} (lookup : Int → Option (sensor_api_t σ))
    (handle : Int) (enabled : Int) (w : hal_state σ) : Int × hal_state σ :=
  match lookup handle with
  | none => (-1, w)
  | some api =>
      let r := call_activate handle api enabled w
      if r.1 < 0 then (-1, r.2) else (0, r.2)

/-- Function `sensors_module_flush`; `lookup` is
`sensors_list_get_api_from_handle`, with `none` for the null pointer. -/
def sensors_module_flush {σ : Type} (lookup : Int → Option (sensor_api_t σ))
    (handle : Int) (w : hal_state σ) : Int × hal_state σ :=
  match lookup handle with
  | none => (-1, w)
  | some _ => (-EINVAL, w)

/-- The operation set of block `d` of the motion driver, as in the static
initialiser; the device opens of this instance take the outcome `opened`. -/
def bma250_motion_api (d : which) (opened : Int) :
    sensor_api_t bma250_motion_sensor_composition :=
  { init := fun sc => bma250_motion_init sc d opened
    activate := fun enable sc => bma250_motion_activate sc d enable opened
    set_delay := fun ns sc => bma250_motion_set_delay sc d ns
    close := fun sc => bma250_motion_close sc d }

/-- A registry holding both sensors of the motion driver under the sample
handles. -/
def sample_lookup (opened : Int) (handle : Int) :
    Option (sensor_api_t bma250_motion_sensor_composition) :=
  if handle = sample_ids.SENSOR_PICK_UP_GESTURE_HANDLE then
    some (bma250_motion_api .pickup opened)
  else if handle = sample_ids.SENSOR_SIGNIFICANT_MOTION_HANDLE then
    some (bma250_motion_api .significant opened)
  else none

/-! ## Basic facts about the driver operations -/

theorem get_desc_internal_activate (sc : bma250_motion_sensor_composition) (d d' : which)
    (enable : Int) :
    get_desc (bma250_motion_internal_activate sc d enable) d' =
      if d' = d then { get_desc sc d with motion := 0, active := enable }
      else get_desc sc d' := by
  cases d <;> cases d' <;>
    simp only [bma250_motion_internal_activate, get_desc, set_desc] <;>
    split_ifs <;> simp_all [get_desc]

theorem select_worker_internal_activate (sc : bma250_motion_sensor_composition) (d : which)
    (enable : Int) :
    (bma250_motion_internal_activate sc d enable).select_worker = sc.select_worker := by
  cases d <;> simp only [bma250_motion_internal_activate, get_desc, set_desc] <;>
    split_ifs <;> rfl

theorem get_desc_activate (sc : bma250_motion_sensor_composition) (d d' : which)
    (enable opened : Int) :
    get_desc (bma250_motion_activate sc d enable opened).2 d' =
      get_desc (bma250_motion_internal_activate sc d enable) d' := by
  unfold bma250_motion_activate
  simp only []
  split_ifs <;> cases d' <;> rfl

theorem report_fires (time : Nat → Int) (s : driver_state) (d : which)
    (h : (get_desc s.sc d).active ≠ 0 ∧ (get_desc s.sc d).motion ≠ 0) :
    bma250_motion_report time s d =
      { sc := bma250_motion_internal_activate s.sc d 0
        fifo := s.fifo ++ [report_event s.sc d (time s.ticks)]
        ticks := s.ticks + 1 } := by
  unfold bma250_motion_report
  rw [if_pos h]
  simp [report_event, get_desc_internal_activate]

theorem report_idle (time : Nat → Int) (s : driver_state) (d : which)
    (h : ¬ ((get_desc s.sc d).active ≠ 0 ∧ (get_desc s.sc d).motion ≠ 0)) :
    bma250_motion_report time s d = s := by
  unfold bma250_motion_report
  rw [if_neg h]

/-- A report either leaves the state alone or disarms `d` and appends its
event. -/
theorem report_cases (time : Nat → Int) (s : driver_state) (d : which) :
    (bma250_motion_report time s d = s ∧
        ¬ ((get_desc s.sc d).active ≠ 0 ∧ (get_desc s.sc d).motion ≠ 0)) ∨
      (bma250_motion_report time s d =
          { sc := bma250_motion_internal_activate s.sc d 0
            fifo := s.fifo ++ [report_event s.sc d (time s.ticks)]
            ticks := s.ticks + 1 } ∧
        (get_desc s.sc d).active ≠ 0 ∧ (get_desc s.sc d).motion ≠ 0) := by
  by_cases h : (get_desc s.sc d).active ≠ 0 ∧ (get_desc s.sc d).motion ≠ 0
  · exact Or.inr ⟨report_fires time s d h, h⟩
  · exact Or.inl ⟨report_idle time s d h, h⟩

theorem decode_syn (time : Nat → Int) (s : driver_state) (event : input_event)
    (h : event.type = EV_SYN) :
    bma250_motion_decode time s event =
      bma250_motion_report time (bma250_motion_report time s .pickup) .significant := by
  unfold bma250_motion_decode
  have h3 : ¬ event.type = EV_ABS := by rw [h]; decide
  rw [if_neg h3, if_pos h]

theorem read_nil (time : Nat → Int) (s : driver_state) :
    bma250_motion_read time s [] = s := rfl

theorem read_cons (time : Nat → Int) (s : driver_state) (e : input_event)
    (es : List input_event) :
    bma250_motion_read time s (e :: es) =
      bma250_motion_read time (bma250_motion_decode time s e) es := rfl

theorem read_append (time : Nat → Int) (s : driver_state) (es fs : List input_event) :
    bma250_motion_read time s (es ++ fs) =
      bma250_motion_read time (bma250_motion_read time s es) fs := by
  simp [bma250_motion_read, List.foldl_append]

/-- What a decode step of an event other than `EV_SYN` leaves alone, and what
it does to the motion flags. -/
theorem decode_not_syn (time : Nat → Int) (s : driver_state) (event : input_event)
    (h : event.type ≠ EV_SYN) :
    let s' := bma250_motion_decode time s event
    s'.fifo = s.fifo ∧ s'.ticks = s.ticks ∧
    (∀ d, (get_desc s'.sc d).active = (get_desc s.sc d).active) ∧
    (∀ d, (get_desc s'.sc d).sensor = (get_desc s.sc d).sensor) ∧
    (∀ d, is_trigger d event → (get_desc s'.sc d).motion = 1) ∧
    (∀ d, (get_desc s.sc d).motion = 1 → (get_desc s'.sc d).motion = 1) := by
  unfold bma250_motion_decode
  simp only [if_neg h]
  split_ifs with h1 h2 h3
  · refine ⟨rfl, rfl, ?_, ?_, ?_, ?_⟩
    · intro d; cases d <;> rfl
    · intro d; cases d <;> rfl
    · intro d ht
      cases d
      · rfl
      · exfalso
        have hv := ht.2
        rw [h2] at hv
        exact absurd hv (by decide)
    · intro d hd; cases d
      · rfl
      · exact hd
  · refine ⟨rfl, rfl, ?_, ?_, ?_, ?_⟩
    · intro d; cases d <;> rfl
    · intro d; cases d <;> rfl
    · intro d ht
      cases d
      · exact absurd ht.2 h2
      · rfl
    · intro d hd; cases d
      · exact hd
      · rfl
  · refine ⟨rfl, rfl, fun _ => rfl, fun _ => rfl, ?_, fun _ hd => hd⟩
    intro d ht
    cases d
    · exact absurd ht.2 h2
    · exact absurd ht.2 h3
  · refine ⟨rfl, rfl, fun _ => rfl, fun _ => rfl, ?_, fun _ hd => hd⟩
    intro d ht
    cases d
    · exact absurd ht.1 h1
    · exact absurd ht.1 h1

/-- A read of events none of which is an `EV_SYN` pushes nothing, keeps the
active flags and raises the motion flag of every sensor whose trigger
occurs. -/
theorem read_not_syn (time : Nat → Int) (events : List input_event) :
    ∀ s : driver_state, (∀ e ∈ events, e.type ≠ EV_SYN) →
      let s' := bma250_motion_read time s events
      s'.fifo = s.fifo ∧ s'.ticks = s.ticks ∧
      (∀ d, (get_desc s'.sc d).active = (get_desc s.sc d).active) ∧
      (∀ d, (get_desc s'.sc d).sensor = (get_desc s.sc d).sensor) ∧
      (∀ d, (∃ e ∈ events, is_trigger d e) → (get_desc s'.sc d).motion = 1) ∧
      (∀ d, (get_desc s.sc d).motion = 1 → (get_desc s'.sc d).motion = 1) := by
  induction events with
  | nil =>
    intro s _
    refine ⟨rfl, rfl, fun _ => rfl, fun _ => rfl, ?_, fun _ hd => hd⟩
    intro d ⟨e, he, _⟩
    exact absurd he (List.not_mem_nil e)
  | cons e es ih =>
    intro s hq
    have he := decode_not_syn time s e (hq e (List.mem_cons_self e es))
    have hes := ih (bma250_motion_decode time s e)
      (fun x hx => hq x (List.mem_cons_of_mem e hx))
    simp only [] at he hes
    simp only [read_cons]
    obtain ⟨a1, a2, a3, a4, a5, a6⟩ := he
    obtain ⟨b1, b2, b3, b4, b5, b6⟩ := hes
    refine ⟨b1.trans a1, b2.trans a2, fun d => (b3 d).trans (a3 d),
      fun d => (b4 d).trans (a4 d), ?_, fun d hd => b6 d (a6 d hd)⟩
    intro d ⟨x, hx, hxt⟩
    rcases List.mem_cons.mp hx with hxe | hxs
    · subst hxe
      exact b6 d (a5 d hxt)
    · exact b5 d ⟨x, hxs, hxt⟩

theorem report_event_congr (sc sc' : bma250_motion_sensor_composition) (d : which) (t : Int)
    (h : (get_desc sc' d).sensor = (get_desc sc d).sensor) :
    report_event sc' d t = report_event sc d t := by
  simp [report_event, h]

theorem pushed_append (s s' : driver_state) (new : List sensors_event_t)
    (h : s'.fifo = s.fifo ++ new) : pushed s s' = new := by
  simp [pushed, h]

/-- Everything one report block does, seen from outside. -/
theorem report_frame (time : Nat → Int) (s : driver_state) (d : which) :
    ∃ new : List sensors_event_t,
      (bma250_motion_report time s d).fifo = s.fifo ++ new ∧
      (∀ x, (get_desc (bma250_motion_report time s d).sc x).sensor =
          (get_desc s.sc x).sensor) ∧
      (∀ x, x ≠ d → get_desc (bma250_motion_report time s d).sc x = get_desc s.sc x) ∧
      (∀ e ∈ new, e.sensor = (get_desc s.sc d).sensor.handle) ∧
      ((get_desc s.sc d).active ≠ 0 ∧ (get_desc s.sc d).motion ≠ 0 →
        new = [report_event s.sc d (time s.ticks)] ∧
        (get_desc (bma250_motion_report time s d).sc d).active = 0 ∧
        (get_desc (bma250_motion_report time s d).sc d).motion = 0) ∧
      (¬ ((get_desc s.sc d).active ≠ 0 ∧ (get_desc s.sc d).motion ≠ 0) →
        new = [] ∧ bma250_motion_report time s d = s) := by
  rcases report_cases time s d with ⟨h, hc⟩ | ⟨h, hc⟩
  · refine ⟨[], ?_, ?_, ?_, ?_, ?_, ?_⟩
    · rw [h]; simp
    · intro x; rw [h]
    · intro x _; rw [h]
    · intro e he; exact absurd he (List.not_mem_nil e)
    · intro hc'; exact absurd hc' hc
    · intro _; exact ⟨rfl, h⟩
  · refine ⟨[report_event s.sc d (time s.ticks)], ?_, ?_, ?_, ?_, ?_, ?_⟩
    · rw [h]
    · intro x; rw [h]
      simp only [get_desc_internal_activate]
      split_ifs with hx
      · rw [hx]
      · rfl
    · intro x hx; rw [h]
      simp only [get_desc_internal_activate, if_neg hx]
    · intro e he
      rw [List.mem_singleton] at he
      rw [he]; rfl
    · intro _
      rw [h]
      simp [get_desc_internal_activate]
    · intro hc'; exact absurd hc hc'

theorem events_of_append (sc : bma250_motion_sensor_composition) (d : which)
    (xs ys : List sensors_event_t) :
    events_of sc d (xs ++ ys) = events_of sc d xs ++ events_of sc d ys := by
  simp [events_of]

theorem events_of_foreign (sc : bma250_motion_sensor_composition) (d : which)
    (xs : List sensors_event_t)
    (h : ∀ e ∈ xs, e.sensor ≠ (get_desc sc d).sensor.handle) :
    events_of sc d xs = [] := by
  simp only [events_of, List.filter_eq_nil_iff]
  intro e he
  simpa using h e he

theorem events_of_own (sc : bma250_motion_sensor_composition) (d : which) (t : Int) :
    events_of sc d [report_event sc d t] = [report_event sc d t] := by
  simp [events_of, report_event]

theorem handle_ne_of_ne (sc : bma250_motion_sensor_composition) (d d' : which)
    (hne : sc.pickup.sensor.handle ≠ sc.significant.sensor.handle) (h : d ≠ d') :
    (get_desc sc d').sensor.handle ≠ (get_desc sc d).sensor.handle := by
  cases d <;> cases d' <;> simp_all [get_desc]
  exact fun h' => hne h'.symm

/-- Everything the decode step of one `EV_SYN` does to sensor `d`, when the
two handles differ. -/
theorem syn_effect (time : Nat → Int) (s : driver_state) (event : input_event) (d : which)
    (hne : s.sc.pickup.sensor.handle ≠ s.sc.significant.sensor.handle)
    (hsyn : event.type = EV_SYN) :
    ∃ new : List sensors_event_t,
      (bma250_motion_decode time s event).fifo = s.fifo ++ new ∧
      (∀ x, (get_desc (bma250_motion_decode time s event).sc x).sensor =
          (get_desc s.sc x).sensor) ∧
      ((get_desc s.sc d).active ≠ 0 ∧ (get_desc s.sc d).motion ≠ 0 →
        (∃ t, events_of s.sc d new = [report_event s.sc d t]) ∧
        (get_desc (bma250_motion_decode time s event).sc d).active = 0 ∧
        (get_desc (bma250_motion_decode time s event).sc d).motion = 0) ∧
      (¬ ((get_desc s.sc d).active ≠ 0 ∧ (get_desc s.sc d).motion ≠ 0) →
        events_of s.sc d new = [] ∧
        get_desc (bma250_motion_decode time s event).sc d = get_desc s.sc d) := by
  rw [decode_syn time s event hsyn]
  obtain ⟨n1, p1, p2, p3, p4, p5, p6⟩ := report_frame time s .pickup
  set s1 := bma250_motion_report time s .pickup with hs1
  obtain ⟨n2, q1, q2, q3, q4, q5, q6⟩ := report_frame time s1 .significant
  set s2 := bma250_motion_report time s1 .significant with hs2
  have hsig : get_desc s1.sc .significant = get_desc s.sc .significant :=
    p3 .significant (by decide)
  have hpick : get_desc s2.sc .pickup = get_desc s1.sc .pickup := q3 .pickup (by decide)
  refine ⟨n1 ++ n2, ?_, ?_, ?_, ?_⟩
  · rw [q1, p1, List.append_assoc]
  · intro x; rw [q2 x, p2 x]
  · intro harm
    cases d with
    | pickup =>
      obtain ⟨r1, r2, r3⟩ := p5 harm
      refine ⟨⟨time s.ticks, ?_⟩, ?_, ?_⟩
      · rw [events_of_append, r1, events_of_own, events_of_foreign s.sc .pickup n2]
        · rfl
        · intro e he
          rw [q4 e he, hsig]
          exact handle_ne_of_ne s.sc .pickup .significant hne (by decide)
      · rw [hpick]; exact r2
      · rw [hpick]; exact r3
    | significant =>
      have harm1 : (get_desc s1.sc .significant).active ≠ 0 ∧
          (get_desc s1.sc .significant).motion ≠ 0 := by rw [hsig]; exact harm
      obtain ⟨r1, r2, r3⟩ := q5 harm1
      refine ⟨⟨time s1.ticks, ?_⟩, r2, r3⟩
      rw [events_of_append, events_of_foreign s.sc .significant n1, r1,
        report_event_congr s.sc s1.sc .significant _ (by rw [hsig]), events_of_own]
      · rfl
      · intro e he
        rw [p4 e he]
        exact handle_ne_of_ne s.sc .significant .pickup hne (by decide)
  · intro harm
    cases d with
    | pickup =>
      obtain ⟨r1, r2⟩ := p6 harm
      refine ⟨?_, ?_⟩
      · rw [events_of_append, r1, events_of_foreign s.sc .pickup n2]
        · rfl
        · intro e he
          rw [q4 e he, hsig]
          exact handle_ne_of_ne s.sc .pickup .significant hne (by decide)
      · rw [hpick, r2]
    | significant =>
      have harm1 : ¬ ((get_desc s1.sc .significant).active ≠ 0 ∧
          (get_desc s1.sc .significant).motion ≠ 0) := by rw [hsig]; exact harm
      obtain ⟨r1, r2⟩ := q6 harm1
      refine ⟨?_, ?_⟩
      · rw [events_of_append, r1, events_of_foreign s.sc .significant n1]
        · rfl
        · intro e he
          rw [p4 e he]
          exact handle_ne_of_ne s.sc .significant .pickup hne (by decide)
      · rw [r2, hsig]

theorem events_of_congr (sc sc' : bma250_motion_sensor_composition) (d : which)
    (xs : List sensors_event_t)
    (h : (get_desc sc' d).sensor = (get_desc sc d).sensor) :
    events_of sc' d xs = events_of sc d xs := by
  simp [events_of, h]

/-- While sensor `d` is inactive, `EV_SYN` events push no event for `d` and
leave it inactive. -/
theorem read_syn_inactive (time : Nat → Int) (d : which) (more : List input_event) :
    ∀ s : driver_state,
      s.sc.pickup.sensor.handle ≠ s.sc.significant.sensor.handle →
      (get_desc s.sc d).active = 0 →
      (∀ e ∈ more, e.type = EV_SYN) →
      ∃ new : List sensors_event_t,
        (bma250_motion_read time s more).fifo = s.fifo ++ new ∧
        events_of s.sc d new = [] ∧
        (get_desc (bma250_motion_read time s more).sc d).active = 0 := by
  induction more with
  | nil =>
    intro s _ hact _
    exact ⟨[], by simp [read_nil], rfl, by simpa [read_nil] using hact⟩
  | cons e es ih =>
    intro s hne hact hall
    obtain ⟨n1, a1, a2, _, a4⟩ :=
      syn_effect time s e d hne (hall e (List.mem_cons_self e es))
    have hidle : ¬ ((get_desc s.sc d).active ≠ 0 ∧ (get_desc s.sc d).motion ≠ 0) :=
      fun h => h.1 hact
    obtain ⟨b1, b2⟩ := a4 hidle
    have hne1 : (bma250_motion_decode time s e).sc.pickup.sensor.handle ≠
        (bma250_motion_decode time s e).sc.significant.sensor.handle := by
      have h1 := a2 .pickup
      have h2 := a2 .significant
      simp only [get_desc] at h1 h2
      rw [h1, h2]; exact hne
    obtain ⟨n2, c1, c2, c3⟩ := ih (bma250_motion_decode time s e) hne1
      (by rw [b2]; exact hact) (fun x hx => hall x (List.mem_cons_of_mem e hx))
    refine ⟨n1 ++ n2, ?_, ?_, ?_⟩
    · rw [read_cons, c1, a1, List.append_assoc]
    · rw [events_of_append, b1, ← events_of_congr s.sc _ d n2 (a2 d), c2]
      rfl
    · rw [read_cons]; exact c3

/-- **C1.** For each sensor `d` (pickup or significant) and every state in
which `d` is active (active flag nonzero, in particular 1 right after an
activation, whatever the motion flag) and the two handles differ: a read of
the two raw events, a trigger of `d` then an `EV_SYN`, pushes exactly one event
carrying the handle of `d`, with the type and version of `d` and payload 1,
and leaves `d` inactive with motion flag 0; a further read of any number of
`EV_SYN` events pushes no event carrying the handle of `d`. -/
theorem one_shot_report (time : Nat → Int) (s : driver_state) (d : which)
    (trig syn : input_event) (more : List input_event)
    (hne : s.sc.pickup.sensor.handle ≠ s.sc.significant.sensor.handle)
    (hact : (get_desc s.sc d).active ≠ 0)
    (htrig : is_trigger d trig) (hsyn : syn.type = EV_SYN)
    (hmore : ∀ e ∈ more, e.type = EV_SYN) :
    (∃ t, events_of s.sc d (pushed s (bma250_motion_read time s [trig, syn])) =
      [ { sensor := (get_desc s.sc d).sensor.handle
          type := (get_desc s.sc d).sensor.type
          version := (get_desc s.sc d).sensor.version
          timestamp := t
          data0 := 1 } ]) ∧
    (get_desc (bma250_motion_read time s [trig, syn]).sc d).active = 0 ∧
    (get_desc (bma250_motion_read time s [trig, syn]).sc d).motion = 0 ∧
    events_of s.sc d
      (pushed (bma250_motion_read time s [trig, syn])
        (bma250_motion_read time (bma250_motion_read time s [trig, syn]) more)) = [] := by
  have habs : trig.type ≠ EV_SYN := by
    have h : trig.type = EV_ABS := by cases d <;> exact htrig.1
    rw [h]; decide
  obtain ⟨a1, _, a3, a4, a5, _⟩ := decode_not_syn time s trig habs
  set s0 := bma250_motion_decode time s trig with hs0
  have hne0 : s0.sc.pickup.sensor.handle ≠ s0.sc.significant.sensor.handle := by
    have h1 := a4 .pickup
    have h2 := a4 .significant
    simp only [get_desc] at h1 h2
    rw [h1, h2]; exact hne
  have harm : (get_desc s0.sc d).active ≠ 0 ∧ (get_desc s0.sc d).motion ≠ 0 := by
    refine ⟨?_, ?_⟩
    · rw [a3 d]; exact hact
    · rw [a5 d htrig]; decide
  obtain ⟨n1, b1, b2, b3, _⟩ := syn_effect time s0 syn d hne0 hsyn
  obtain ⟨⟨t, c1⟩, c2, c3⟩ := b3 harm
  have hread : bma250_motion_read time s [trig, syn] = bma250_motion_decode time s0 syn := by
    rw [read_cons, read_cons, read_nil]
  rw [hread]
  set s1 := bma250_motion_decode time s0 syn with hs1
  have hsens1 : ∀ x, (get_desc s1.sc x).sensor = (get_desc s.sc x).sensor :=
    fun x => (b2 x).trans (a4 x)
  have hne1 : s1.sc.pickup.sensor.handle ≠ s1.sc.significant.sensor.handle := by
    have h1 := hsens1 .pickup
    have h2 := hsens1 .significant
    simp only [get_desc] at h1 h2
    rw [h1, h2]; exact hne
  obtain ⟨n2, e1, e2, _⟩ := read_syn_inactive time d more s1 hne1 c2 hmore
  refine ⟨⟨t, ?_⟩, c2, c3, ?_⟩
  · rw [pushed_append s s1 n1 (by rw [b1, a1]), ← events_of_congr s.sc s0.sc d n1 (a4 d), c1,
      report_event_congr s.sc s0.sc d t (a4 d)]
    rfl
  · rw [pushed_append s1 _ n2 e1, ← events_of_congr s.sc s1.sc d n2 (hsens1 d), e2]

/-- Witness for C1: significant armed next to an armed pickup, the raw events
slope, sync, then three more syncs. -/
theorem one_shot_report_witness :
    (∃ t, events_of sample_armed.sc .significant
        (pushed sample_armed
          (bma250_motion_read sample_time sample_armed
            [⟨3, 40, 1⟩, ⟨0, 0, 0⟩])) =
      [ { sensor := 22, type := 17, version := 104, timestamp := t, data0 := 1 } ]) ∧
    (get_desc (bma250_motion_read sample_time sample_armed
        [⟨3, 40, 1⟩, ⟨0, 0, 0⟩]).sc .significant).active = 0 ∧
    (get_desc (bma250_motion_read sample_time sample_armed
        [⟨3, 40, 1⟩, ⟨0, 0, 0⟩]).sc .significant).motion = 0 ∧
    events_of sample_armed.sc .significant
      (pushed (bma250_motion_read sample_time sample_armed
          [⟨3, 40, 1⟩, ⟨0, 0, 0⟩])
        (bma250_motion_read sample_time
          (bma250_motion_read sample_time sample_armed
            [⟨3, 40, 1⟩, ⟨0, 0, 0⟩])
          [⟨0, 0, 0⟩, ⟨0, 0, 0⟩, ⟨0, 0, 0⟩])) = [] :=
  one_shot_report sample_time
    sample_armed
    .significant ⟨3, 40, 1⟩ ⟨0, 0, 0⟩ [⟨0, 0, 0⟩, ⟨0, 0, 0⟩, ⟨0, 0, 0⟩]
    (by decide) (by decide) (by decide) (by decide) (by decide)

/-- **C2.** In a state where both sensors are active, a read of raw events
without `EV_SYN` (in particular of `EV_ABS` events only) among which a high-g
and a slope `EV_ABS` event occur, in any order, followed by one `EV_SYN`,
pushes exactly two events: first the event of pickup (its handle, type and
version, payload 1), then the event of significant. -/
theorem pickup_reported_before_significant (time : Nat → Int) (s : driver_state)
    (pre : List input_event) (syn : input_event)
    (hp : s.sc.pickup.active ≠ 0) (hs : s.sc.significant.active ≠ 0)
    (hpre : ∀ e ∈ pre, e.type ≠ EV_SYN)
    (hhigh : ∃ e ∈ pre, e.type = EV_ABS ∧ e.value = BMA250_MOTION_HIGH_G)
    (hslope : ∃ e ∈ pre, e.type = EV_ABS ∧ e.value = BMA250_MOTION_SLOPE)
    (hsyn : syn.type = EV_SYN) :
    pushed s (bma250_motion_read time s (pre ++ [syn])) =
      [ { sensor := s.sc.pickup.sensor.handle
          type := s.sc.pickup.sensor.type
          version := s.sc.pickup.sensor.version
          timestamp := time s.ticks
          data0 := 1 },
        { sensor := s.sc.significant.sensor.handle
          type := s.sc.significant.sensor.type
          version := s.sc.significant.sensor.version
          timestamp := time (s.ticks + 1)
          data0 := 1 } ] := by
  obtain ⟨a1, a2, a3, a4, a5, _⟩ := read_not_syn time pre s hpre
  have mp := a5 .pickup hhigh
  have ms := a5 .significant hslope
  have ap := a3 .pickup
  have as := a3 .significant
  set s1 := bma250_motion_read time s pre with hs1
  have f1 : (get_desc s1.sc .pickup).active ≠ 0 ∧ (get_desc s1.sc .pickup).motion ≠ 0 := by
    refine ⟨?_, ?_⟩
    · rw [ap]; exact hp
    · rw [mp]; decide
  have e1 := report_fires time s1 .pickup f1
  set s2 := bma250_motion_report time s1 .pickup with hs2
  have g2 : get_desc s2.sc .significant = get_desc s1.sc .significant := by
    rw [e1]
    simp [get_desc_internal_activate]
  have f2 : (get_desc s2.sc .significant).active ≠ 0 ∧
      (get_desc s2.sc .significant).motion ≠ 0 := by
    rw [g2]
    refine ⟨?_, ?_⟩
    · rw [as]; exact hs
    · rw [ms]; decide
  have e2 := report_fires time s2 .significant f2
  apply pushed_append
  rw [read_append, read_cons, read_nil, decode_syn time _ syn hsyn, ← hs1, ← hs2, e2]
  have r2 : report_event s2.sc .significant (time s2.ticks) =
      report_event s.sc .significant (time (s.ticks + 1)) := by
    rw [report_event_congr s1.sc s2.sc .significant _ (by rw [g2]),
      report_event_congr s.sc s1.sc .significant _ (a4 .significant)]
    rw [e1]
    simp [a2]
  have r1 : report_event s1.sc .pickup (time s1.ticks) =
      report_event s.sc .pickup (time s.ticks) := by
    rw [report_event_congr s.sc s1.sc .pickup _ (a4 .pickup), a2]
  simp only [r2]
  rw [e1]
  simp only [r1, a1, List.append_assoc, List.singleton_append]
  rfl

/-- Witness for C2: both sensors armed, the raw events slope, tap, high-g,
sync. -/
theorem pickup_reported_before_significant_witness :
    pushed sample_armed
      (bma250_motion_read sample_time
        sample_armed
        ([⟨3, 40, 1⟩, ⟨3, 40, 0⟩, ⟨3, 40, 3⟩] ++ [⟨0, 0, 0⟩])) =
      [ { sensor := 21, type := 25, version := 104, timestamp := 0, data0 := 1 },
        { sensor := 22, type := 17, version := 104, timestamp := 1000, data0 := 1 } ] :=
  pickup_reported_before_significant sample_time
    sample_armed
    [⟨3, 40, 1⟩, ⟨3, 40, 0⟩, ⟨3, 40, 3⟩] ⟨0, 0, 0⟩
    (by decide) (by decide) (by decide)
    ⟨⟨3, 40, 3⟩, by decide, by decide⟩ ⟨⟨3, 40, 1⟩, by decide, by decide⟩ (by decide)

/-! ## Runs: frame lemmas -/

theorem run_nil (time : Nat → Int) (s : driver_state) : run time s [] = s := rfl

theorem run_cons (time : Nat → Int) (s : driver_state) (st : driver_step)
    (rest : List driver_step) :
    run time s (st :: rest) = run time (step time s st) rest := rfl

theorem get_desc_step_activate (time : Nat → Int) (s : driver_state) (d x : which)
    (enable opened : Int) :
    get_desc (step time s (.activate d enable opened)).sc x =
      if x = d then { get_desc s.sc d with motion := 0, active := enable }
      else get_desc s.sc x := by
  simp only [step, get_desc_activate, get_desc_internal_activate]

/-- A decode step of an event that is neither an `EV_SYN` nor a trigger of `d`
keeps the motion flag of `d`. -/
theorem decode_motion_of_not_trigger (time : Nat → Int) (s : driver_state)
    (event : input_event) (d : which)
    (h : event.type ≠ EV_SYN) (ht : ¬ is_trigger d event) :
    (get_desc (bma250_motion_decode time s event).sc d).motion = (get_desc s.sc d).motion := by
  unfold bma250_motion_decode
  simp only [if_neg h]
  split_ifs with h1 h2 h3
  · cases d
    · exact absurd ⟨h1, h2⟩ ht
    · rfl
  · cases d
    · rfl
    · exact absurd ⟨h1, h3⟩ ht
  · rfl
  · rfl

theorem select_worker_report (time : Nat → Int) (s : driver_state) (d : which) :
    (bma250_motion_report time s d).sc.select_worker = s.sc.select_worker := by
  rcases report_cases time s d with ⟨h, _⟩ | ⟨h, _⟩
  · rw [h]
  · rw [h]; exact select_worker_internal_activate s.sc d 0

theorem select_worker_decode (time : Nat → Int) (s : driver_state) (event : input_event) :
    (bma250_motion_decode time s event).sc.select_worker = s.sc.select_worker := by
  unfold bma250_motion_decode
  split_ifs
  · rfl
  · rfl
  · rfl
  · rw [select_worker_report, select_worker_report]
  · rfl

/-- A report keeps an inactive sensor inactive. -/
theorem report_keeps_inactive (time : Nat → Int) (s : driver_state) (d x : which)
    (h : (get_desc s.sc x).active = 0) :
    (get_desc (bma250_motion_report time s d).sc x).active = 0 := by
  rcases report_cases time s d with ⟨e, _⟩ | ⟨e, _⟩
  · rw [e]; exact h
  · rw [e]
    simp only [get_desc_internal_activate]
    split_ifs
    · rfl
    · exact h

/-- A decode step keeps an inactive sensor inactive. -/
theorem decode_keeps_inactive (time : Nat → Int) (s : driver_state) (event : input_event)
    (x : which) (h : (get_desc s.sc x).active = 0) :
    (get_desc (bma250_motion_decode time s event).sc x).active = 0 := by
  by_cases hs : event.type = EV_SYN
  · rw [decode_syn time s event hs]
    exact report_keeps_inactive time _ _ x (report_keeps_inactive time s _ x h)
  · rw [(decode_not_syn time s event hs).2.2.1 x]; exact h

/-- The invariant behind C3: the motion flag of `d` is 0 and every other
sensor is inactive; then no step of the restricted kind pushes anything. -/
theorem untriggered_step (time : Nat → Int) (s : driver_state) (d : which) (st : driver_step)
    (hm : (get_desc s.sc d).motion = 0)
    (ho : ∀ x, x ≠ d → (get_desc s.sc x).active = 0)
    (hst : untriggered d st) :
    (get_desc (step time s st).sc d).motion = 0 ∧
    (∀ x, x ≠ d → (get_desc (step time s st).sc x).active = 0) ∧
    (step time s st).fifo = s.fifo := by
  cases st with
  | activate d' enable opened =>
    have hd : d' = d := hst
    subst hd
    refine ⟨?_, ?_, rfl⟩
    · rw [get_desc_step_activate]; simp
    · intro x hx
      rw [get_desc_step_activate, if_neg hx]
      exact ho x hx
  | decode event =>
    have ht : ¬ is_trigger d event := hst
    by_cases hs : event.type = EV_SYN
    · have hidle : ∀ x, ¬ ((get_desc s.sc x).active ≠ 0 ∧ (get_desc s.sc x).motion ≠ 0) := by
        intro x hx
        by_cases hxd : x = d
        · subst hxd; exact hx.2 hm
        · exact hx.1 (ho x hxd)
      have e : step time s (.decode event) = s := by
        simp only [step]
        rw [decode_syn time s event hs, report_idle time s .pickup (hidle .pickup),
          report_idle time s .significant (hidle .significant)]
      rw [e]
      exact ⟨hm, ho, rfl⟩
    · have hf := decode_not_syn time s event hs
      simp only [step]
      refine ⟨?_, ?_, hf.1⟩
      · rw [decode_motion_of_not_trigger time s event d hs ht]; exact hm
      · intro x hx
        rw [hf.2.2.1 x]; exact ho x hx

theorem untriggered_run (time : Nat → Int) (d : which) (steps : List driver_step) :
    ∀ s : driver_state,
      (get_desc s.sc d).motion = 0 →
      (∀ x, x ≠ d → (get_desc s.sc x).active = 0) →
      (∀ st ∈ steps, untriggered d st) →
      (run time s steps).fifo = s.fifo := by
  induction steps with
  | nil => intro s _ _ _; rfl
  | cons st rest ih =>
    intro s hm ho hall
    obtain ⟨a1, a2, a3⟩ :=
      untriggered_step time s d st hm ho (hall st (List.mem_cons_self st rest))
    rw [run_cons, ih (step time s st) a1 a2 (fun x hx => hall x (List.mem_cons_of_mem st hx)), a3]

/-- **C3.** From an initial state (both sensors inactive, both motion flags 0,
worker unbound), every run made of `bma250_motion_activate` calls on one
sensor `d` (enabling or disabling, the device open succeeding or failing) and
of decode steps of raw events that are not a trigger of `d` pushes no event at
all, hence none for `d`; and a call of `bma250_motion_activate`, in any state
and on any sensor, pushes nothing. -/
theorem no_trigger_no_event (time : Nat → Int) (s : driver_state) (d : which)
    (steps : List driver_step)
    (hinit : is_initial s) (hsteps : ∀ st ∈ steps, untriggered d st) :
    pushed s (run time s steps) = [] ∧
    events_of s.sc d (pushed s (run time s steps)) = [] ∧
    ∀ (s' : driver_state) (d' : which) (enable opened : Int),
      pushed s' (step time s' (.activate d' enable opened)) = [] := by
  obtain ⟨h1, h2, h3, h4, _⟩ := hinit
  have hf : (run time s steps).fifo = s.fifo := by
    apply untriggered_run time d steps s
    · cases d
      · exact h3
      · exact h4
    · intro x _
      cases x
      · exact h1
      · exact h2
    · exact hsteps
  have hp : pushed s (run time s steps) = [] := pushed_append s _ [] (by rw [hf]; simp)
  refine ⟨hp, ?_, ?_⟩
  · rw [hp]; rfl
  · intro s' d' enable opened
    exact pushed_append s' _ [] (by simp [step])

/-- Witness for C3: pickup armed over a failing and a succeeding open, slope
and tap events and syncs decoded, pickup disarmed and armed again. -/
theorem no_trigger_no_event_witness :
    pushed (boot sample_ids) (run sample_time (boot sample_ids)
        [.activate .pickup 1 (-1), .activate .pickup 1 5, .decode ⟨3, 40, 1⟩,
          .decode ⟨0, 0, 0⟩, .activate .pickup 0 5, .decode ⟨3, 40, 0⟩,
          .activate .pickup 1 5, .decode ⟨0, 0, 0⟩]) = [] :=
  (no_trigger_no_event sample_time (boot sample_ids) .pickup
    [.activate .pickup 1 (-1), .activate .pickup 1 5, .decode ⟨3, 40, 1⟩,
      .decode ⟨0, 0, 0⟩, .activate .pickup 0 5, .decode ⟨3, 40, 0⟩,
      .activate .pickup 1 5, .decode ⟨0, 0, 0⟩]
    (by decide) (by decide)).1

/-! ## The worker binding and the active flags -/

/-- A successful or open-free `bma250_motion_activate` keeps: an unbound worker
means no sensor is active. -/
theorem activate_keeps_bound (sc : bma250_motion_sensor_composition) (d : which)
    (enable opened : Int) (hop : 0 ≤ opened)
    (hJ : sc.select_worker.fd < 0 → ∀ x, (get_desc sc x).active = 0) :
    (bma250_motion_activate sc d enable opened).2.select_worker.fd < 0 →
      ∀ x, (get_desc (bma250_motion_activate sc d enable opened).2 x).active = 0 := by
  intro hfd x
  rw [get_desc_activate]
  unfold bma250_motion_activate at hfd
  simp only [sensors_select_get_fd, sensors_select_set_fd, sensors_select_resume,
    sensors_select_suspend] at hfd
  split_ifs at hfd with h1 h2 h3 h4
  · exact absurd h2 (not_lt.mpr hop)
  · exact absurd hfd (not_lt.mpr hop)
  · cases x
    · exact h4.1
    · exact h4.2
  · have hfd' : (bma250_motion_internal_activate sc d enable).select_worker.fd < 0 := hfd
    rw [select_worker_internal_activate] at hfd'
    exact absurd hfd' (not_lt.mpr (le_of_lt h3.2))
  · have hfd' : (bma250_motion_internal_activate sc d enable).select_worker.fd < 0 := hfd
    rw [select_worker_internal_activate] at hfd'
    have hen : enable = 0 := by
      by_contra hne
      exact h1 ⟨hne, hfd'⟩
    rw [get_desc_internal_activate]
    split_ifs
    · exact hen
    · exact hJ hfd' x

theorem step_keeps_bound (time : Nat → Int) (s : driver_state) (st : driver_step)
    (hop : open_succeeds st)
    (hJ : s.sc.select_worker.fd < 0 → ∀ x, (get_desc s.sc x).active = 0) :
    (step time s st).sc.select_worker.fd < 0 →
      ∀ x, (get_desc (step time s st).sc x).active = 0 := by
  cases st with
  | activate d enable opened =>
    exact activate_keeps_bound s.sc d enable opened hop hJ
  | decode event =>
    intro hfd x
    simp only [step] at hfd ⊢
    rw [select_worker_decode] at hfd
    exact decode_keeps_inactive time s event x (hJ hfd x)

theorem run_keeps_bound (time : Nat → Int) (steps : List driver_step) :
    ∀ s : driver_state,
      (∀ st ∈ steps, open_succeeds st) →
      (s.sc.select_worker.fd < 0 → ∀ x, (get_desc s.sc x).active = 0) →
      (run time s steps).sc.select_worker.fd < 0 →
        ∀ x, (get_desc (run time s steps).sc x).active = 0 := by
  induction steps with
  | nil => intro s _ hJ; exact hJ
  | cons st rest ih =>
    intro s hall hJ
    rw [run_cons]
    exact ih (step time s st) (fun x hx => hall x (List.mem_cons_of_mem st hx))
      (step_keeps_bound time s st (hall st (List.mem_cons_self st rest)) hJ)

theorem activate_fd_ne_zero (sc : bma250_motion_sensor_composition) (d : which)
    (enable opened : Int) (hop : 0 < opened) (h : sc.select_worker.fd ≠ 0) :
    (bma250_motion_activate sc d enable opened).2.select_worker.fd ≠ 0 := by
  unfold bma250_motion_activate
  simp only [sensors_select_get_fd, sensors_select_set_fd, sensors_select_resume,
    sensors_select_suspend]
  split_ifs with h1 h2 h3 h4
  · exact absurd h2 (not_lt.mpr (le_of_lt hop))
  · exact ne_of_gt hop
  · show (-1 : Int) ≠ 0
    decide
  · show (bma250_motion_internal_activate sc d enable).select_worker.fd ≠ 0
    rw [select_worker_internal_activate]; exact h
  · show (bma250_motion_internal_activate sc d enable).select_worker.fd ≠ 0
    rw [select_worker_internal_activate]; exact h

theorem run_fd_ne_zero (time : Nat → Int) (steps : List driver_step) :
    ∀ s : driver_state,
      (∀ st ∈ steps, open_positive st) →
      s.sc.select_worker.fd ≠ 0 →
      (run time s steps).sc.select_worker.fd ≠ 0 := by
  induction steps with
  | nil => intro s _ h; exact h
  | cons st rest ih =>
    intro s hall h
    rw [run_cons]
    apply ih (step time s st) (fun x hx => hall x (List.mem_cons_of_mem st hx))
    have hst := hall st (List.mem_cons_self st rest)
    cases st with
    | activate d enable opened => exact activate_fd_ne_zero s.sc d enable opened hst h
    | decode event =>
      simp only [step]
      rw [select_worker_decode]; exact h

/-- After a `bma250_motion_activate` call on a worker whose handle is not 0,
no active sensor means an unbound worker. -/
theorem activate_restores_unbound (sc : bma250_motion_sensor_composition) (d : which)
    (enable opened : Int) (h : sc.select_worker.fd ≠ 0)
    (hall : ∀ x, (get_desc (bma250_motion_activate sc d enable opened).2 x).active = 0) :
    (bma250_motion_activate sc d enable opened).2.select_worker.fd < 0 := by
  have hd := hall d
  rw [get_desc_activate, get_desc_internal_activate, if_pos rfl] at hd
  have hen : enable = 0 := hd
  have hp := hall .pickup
  have hs := hall .significant
  rw [get_desc_activate] at hp hs
  unfold bma250_motion_activate
  simp only [sensors_select_get_fd, sensors_select_set_fd, sensors_select_resume,
    sensors_select_suspend]
  split_ifs with h1 h2 h3 h4
  · exact absurd hen h1.1
  · exact absurd hen h1.1
  · show (-1 : Int) < 0
    decide
  · exact absurd ⟨hp, hs⟩ h4
  · show (bma250_motion_internal_activate sc d enable).select_worker.fd < 0
    rw [select_worker_internal_activate]
    have h5 : ¬ sc.select_worker.fd > 0 := fun h' => h3 ⟨hen, h'⟩
    omega

theorem internal_activate_split (sc : bma250_motion_sensor_composition) (d : which)
    (enable : Int) :
    bma250_motion_internal_activate sc d enable =
      internal_activate_write_mode
        (internal_activate_store_active (internal_activate_store_motion sc d) d enable)
        d enable := by
  cases d <;> rfl

theorem activate_split (sc : bma250_motion_sensor_composition) (d : which)
    (enable opened : Int) :
    bma250_motion_activate sc d enable opened =
      activate_manage_worker (bma250_motion_internal_activate sc d enable)
        (sensors_select_get_fd sc.select_worker) enable opened := rfl

/-- A call that enters and executes its four statements with no decode step in
between does what `bma250_motion_activate` does. -/
theorem trun_whole_call (time : Nat → Int) (s : driver_state) (d : which)
    (enable opened : Int) (o1 o2 o3 : Int) :
    trun time ⟨s, none⟩
        [.enter d enable, .advance o1, .advance o2, .advance o3, .advance opened] =
      ⟨step time s (.activate d enable opened), none⟩ := by
  simp only [trun, List.foldl, tstep, step, activate_split, internal_activate_split]

theorem trun_nil (time : Nat → Int) (t : threaded_state) : trun time t [] = t := rfl

theorem trun_cons (time : Nat → Int) (t : threaded_state) (st : threaded_step)
    (rest : List threaded_step) :
    trun time t (st :: rest) = trun time (tstep time t st) rest := rfl

theorem get_desc_store_motion (sc : bma250_motion_sensor_composition) (d x : which) :
    get_desc (internal_activate_store_motion sc d) x =
      if x = d then { get_desc sc d with motion := 0 } else get_desc sc x := by
  cases d <;> cases x <;> simp [internal_activate_store_motion, get_desc, set_desc]

theorem get_desc_store_active (sc : bma250_motion_sensor_composition) (d x : which)
    (enable : Int) :
    get_desc (internal_activate_store_active sc d enable) x =
      if x = d then { get_desc sc d with active := enable } else get_desc sc x := by
  cases d <;> cases x <;> simp [internal_activate_store_active, get_desc, set_desc]

theorem get_desc_write_mode (sc : bma250_motion_sensor_composition) (d x : which)
    (enable : Int) :
    get_desc (internal_activate_write_mode sc d enable) x = get_desc sc x := by
  unfold internal_activate_write_mode
  split_ifs <;> cases x <;> rfl

theorem get_desc_manage_worker (sc : bma250_motion_sensor_composition) (x : which)
    (fd enable opened : Int) :
    get_desc (activate_manage_worker sc fd enable opened).2 x = get_desc sc x := by
  unfold activate_manage_worker
  simp only []
  split_ifs <;> cases x <;> rfl

theorem report_keeps_motion_active (time : Nat → Int) (s : driver_state) (d : which)
    (hK : ∀ x, (get_desc s.sc x).motion ≠ 0 → (get_desc s.sc x).active ≠ 0) :
    ∀ x, (get_desc (bma250_motion_report time s d).sc x).motion ≠ 0 →
      (get_desc (bma250_motion_report time s d).sc x).active ≠ 0 := by
  intro x
  rcases report_cases time s d with ⟨e, _⟩ | ⟨e, _⟩
  · rw [e]; exact hK x
  · rw [e]
    simp only [get_desc_internal_activate]
    split_ifs
    · intro h; exact absurd rfl h
    · exact hK x

theorem report_keeps_motion_zero (time : Nat → Int) (s : driver_state) (d x : which)
    (h : (get_desc s.sc x).motion = 0) :
    (get_desc (bma250_motion_report time s d).sc x).motion = 0 := by
  rcases report_cases time s d with ⟨e, _⟩ | ⟨e, _⟩
  · rw [e]; exact h
  · rw [e]
    simp only [get_desc_internal_activate]
    split_ifs
    · rfl
    · exact h

/-- A decode step of an event that is no trigger of `x` keeps a zero motion
flag of `x` zero. -/
theorem decode_keeps_motion_zero (time : Nat → Int) (s : driver_state) (event : input_event)
    (x : which) (ht : ¬ is_trigger x event) (h : (get_desc s.sc x).motion = 0) :
    (get_desc (bma250_motion_decode time s event).sc x).motion = 0 := by
  by_cases hs : event.type = EV_SYN
  · rw [decode_syn time s event hs]
    exact report_keeps_motion_zero time _ _ x (report_keeps_motion_zero time s _ x h)
  · rw [decode_motion_of_not_trigger time s event x hs ht]; exact h

/-- A decode step that raises no motion flag of an inactive sensor keeps:
a nonzero motion flag means a nonzero active flag. -/
theorem decode_keeps_motion_active (time : Nat → Int) (s : driver_state)
    (event : input_event)
    (hst : ∀ d, is_trigger d event → (get_desc s.sc d).active ≠ 0)
    (hK : ∀ x, (get_desc s.sc x).motion ≠ 0 → (get_desc s.sc x).active ≠ 0) :
    ∀ x, (get_desc (bma250_motion_decode time s event).sc x).motion ≠ 0 →
      (get_desc (bma250_motion_decode time s event).sc x).active ≠ 0 := by
  by_cases hs : event.type = EV_SYN
  · rw [decode_syn time s event hs]
    exact report_keeps_motion_active time _ .significant
      (report_keeps_motion_active time s .pickup hK)
  · intro x hm
    have hf := decode_not_syn time s event hs
    rw [hf.2.2.1 x]
    by_cases ht : is_trigger x event
    · exact hst x ht
    · rw [decode_motion_of_not_trigger time s event x hs ht] at hm
      exact hK x hm

/-- The invariant behind the amended C8, for one step of the interleaved
run: a nonzero motion flag means a nonzero active flag, and a sensor whose
activate call is between its two stores has motion flag 0. -/
theorem tstep_keeps_motion_active (time : Nat → Int) (t : threaded_state)
    (st : threaded_step) (hst : trigger_allowed t st)
    (hK : ∀ x, (get_desc t.st.sc x).motion ≠ 0 → (get_desc t.st.sc x).active ≠ 0)
    (hB : ∀ x, between_stores t x → (get_desc t.st.sc x).motion = 0) :
    (∀ x, (get_desc (tstep time t st).st.sc x).motion ≠ 0 →
      (get_desc (tstep time t st).st.sc x).active ≠ 0) ∧
    (∀ x, between_stores (tstep time t st) x →
      (get_desc (tstep time t st).st.sc x).motion = 0) := by
  obtain ⟨s, call⟩ := t
  cases st with
  | enter d enable =>
    cases call with
    | some c => exact ⟨hK, hB⟩
    | none =>
      refine ⟨hK, ?_⟩
      intro x hx
      simp [tstep, between_stores] at hx
  | advance opened =>
    cases call with
    | none => exact ⟨hK, hB⟩
    | some c =>
      obtain ⟨d, enable, fd, pc⟩ := c
      cases pc with
      | store_motion =>
        refine ⟨?_, ?_⟩
        · intro x
          simp only [tstep, get_desc_store_motion]
          split_ifs
          · intro h; exact absurd rfl h
          · exact hK x
        · intro x hx
          have hxd : d = x := by
            simp only [tstep, between_stores] at hx
            exact hx.1
          subst hxd
          simp [tstep, get_desc_store_motion]
      | store_active =>
        have hm : (get_desc s.sc d).motion = 0 := hB d (by simp [between_stores])
        refine ⟨?_, ?_⟩
        · intro x
          simp only [tstep, get_desc_store_active]
          split_ifs
          · intro h; exact absurd hm h
          · exact hK x
        · intro x hx
          simp [tstep, between_stores] at hx
      | write_mode =>
        refine ⟨?_, ?_⟩
        · intro x
          simp only [tstep, get_desc_write_mode]
          exact hK x
        · intro x hx
          simp [tstep, between_stores] at hx
      | manage_worker =>
        refine ⟨?_, ?_⟩
        · intro x
          simp only [tstep, get_desc_manage_worker]
          exact hK x
        · intro x hx
          simp [tstep, between_stores] at hx
  | decode event =>
    have hst' : ∀ d, is_trigger d event →
        (get_desc s.sc d).active ≠ 0 ∧ ¬ between_stores ⟨s, call⟩ d := hst
    refine ⟨?_, ?_⟩
    · exact decode_keeps_motion_active time s event (fun d hd => (hst' d hd).1) hK
    · intro x hx
      have hx' : between_stores ⟨s, call⟩ x := hx
      have ht : ¬ is_trigger x event := fun h => (hst' x h).2 hx'
      exact decode_keeps_motion_zero time s event x ht (hB x hx')

theorem trun_keeps_motion_active (time : Nat → Int) (steps : List threaded_step) :
    ∀ t : threaded_state,
      triggers_while_active time t steps →
      (∀ x, (get_desc t.st.sc x).motion ≠ 0 → (get_desc t.st.sc x).active ≠ 0) →
      (∀ x, between_stores t x → (get_desc t.st.sc x).motion = 0) →
      ∀ x, (get_desc (trun time t steps).st.sc x).motion ≠ 0 →
        (get_desc (trun time t steps).st.sc x).active ≠ 0 := by
  induction steps with
  | nil => intro t _ hK _; exact hK
  | cons st rest ih =>
    intro t hall hK hB
    obtain ⟨k1, k2⟩ := tstep_keeps_motion_active time t st hall.1 hK hB
    rw [trun_cons]
    exact ih (tstep time t st) hall.2 k1 k2

/-- **C8, as stated, fails.** From the initial state, activating significant
(the open returns descriptor 5) and decoding one high-g event leaves pickup
with motion flag 1 and active flag 0: the decode step raises the motion flag
without looking at the active flag. -/
theorem motion_set_while_inactive :
    is_initial (boot sample_ids) ∧
    (run sample_time (boot sample_ids)
      [.activate .significant 1 5, .decode ⟨3, 40, 3⟩]).sc.pickup.motion = 1 ∧
    (run sample_time (boot sample_ids)
      [.activate .significant 1 5, .decode ⟨3, 40, 3⟩]).sc.pickup.active = 0 := by
  decide

/-- The second way to a raised motion flag on an inactive sensor: pickup is
active, a call `bma250_motion_activate(pickup, 0)` has stored `motion = 0`,
the worker decodes a high-g event (pickup is still active at that moment),
then the call stores `active = 0`. -/
theorem motion_set_between_stores :
    (trun sample_time ⟨boot sample_ids, none⟩
      [.enter .pickup 1, .advance 5, .advance 5, .advance 5, .advance 5,
        .enter .pickup 0, .advance 5]).st.sc.pickup.active = 1 ∧
    (trun sample_time ⟨boot sample_ids, none⟩
      [.enter .pickup 1, .advance 5, .advance 5, .advance 5, .advance 5,
        .enter .pickup 0, .advance 5, .decode ⟨3, 40, 3⟩, .advance 5, .advance 5,
        .advance 5]).st.sc.pickup.motion = 1 ∧
    (trun sample_time ⟨boot sample_ids, none⟩
      [.enter .pickup 1, .advance 5, .advance 5, .advance 5, .advance 5,
        .enter .pickup 0, .advance 5, .decode ⟨3, 40, 3⟩, .advance 5, .advance 5,
        .advance 5]).st.sc.pickup.active = 0 := by
  decide

/-- **C8, amended.** Take a state with both motion flags 0 and no activate
call in progress (in particular the initial state), and any run in which the
statements of `bma250_motion_activate` calls (one call at a time, the device
open succeeding or failing) are interleaved in any way with decode steps of the
worker, provided a trigger of a sensor is decoded only while that sensor is
active and no activate call on it stands between its two stores
(`d->motion = 0` done, `d->active = enable` not yet). In every state so
reached, also in the middle of a call, for pickup and for significant the
motion flag is nonzero (in particular 1) only if the active flag is nonzero. -/
theorem motion_only_while_active (time : Nat → Int) (t : threaded_state)
    (steps : List threaded_step)
    (hpm : t.st.sc.pickup.motion = 0) (hsm : t.st.sc.significant.motion = 0)
    (hcall : t.call = none)
    (hsteps : triggers_while_active time t steps) :
    ((trun time t steps).st.sc.pickup.motion ≠ 0 →
      (trun time t steps).st.sc.pickup.active ≠ 0) ∧
    ((trun time t steps).st.sc.significant.motion ≠ 0 →
      (trun time t steps).st.sc.significant.active ≠ 0) := by
  have h := trun_keeps_motion_active time steps t hsteps
    (fun x hx => by cases x; exact absurd hpm hx; exact absurd hsm hx)
    (fun x hx => by simp [between_stores, hcall] at hx)
  exact ⟨h .pickup, h .significant⟩

/-- Witness for the amended C8: pickup is armed by a call whose statements are
separated by a tap event and a sync of the worker, then a high-g event is
decoded: motion and active are both set. -/
theorem motion_only_while_active_witness :
    (trun sample_time ⟨boot sample_ids, none⟩
        [.enter .pickup 1, .advance 5, .decode ⟨3, 40, 0⟩, .advance 5, .decode ⟨0, 0, 0⟩,
          .advance 5, .advance 5, .decode ⟨3, 40, 3⟩]).st.sc.pickup.motion ≠ 0 ∧
    (trun sample_time ⟨boot sample_ids, none⟩
        [.enter .pickup 1, .advance 5, .decode ⟨3, 40, 0⟩, .advance 5, .decode ⟨0, 0, 0⟩,
          .advance 5, .advance 5, .decode ⟨3, 40, 3⟩]).st.sc.pickup.active ≠ 0 :=
  ⟨by decide,
    (motion_only_while_active sample_time ⟨boot sample_ids, none⟩
      [.enter .pickup 1, .advance 5, .decode ⟨3, 40, 0⟩, .advance 5, .decode ⟨0, 0, 0⟩,
        .advance 5, .advance 5, .decode ⟨3, 40, 3⟩]
      (by decide) (by decide) (by decide)
      ⟨by decide, by decide, by decide, by decide, by decide, by decide, by decide,
        by decide, trivial⟩).1 (by decide)⟩

/-! ## Failure paths of activate and init -/

/-- **C4 fails on the code.** In the state after boot (pickup inactive, no
mode written, worker unbound), `bma250_motion_activate(pickup, 1)` with a
failing device open returns -1, yet pickup is left active and the enabled mode
0x72 has been written to `high_g_mode`; the worker stays unbound. -/
theorem failed_activate_leaves_sensor_active :
    (boot sample_ids).sc.pickup.active = 0 ∧
    (boot sample_ids).sc.sysfs.writes = [] ∧
    (boot sample_ids).sc.select_worker.fd = -1 ∧
    (bma250_motion_activate (boot sample_ids).sc .pickup 1 (-1)).1 = -1 ∧
    (bma250_motion_activate (boot sample_ids).sc .pickup 1 (-1)).2.pickup.active = 1 ∧
    (bma250_motion_activate (boot sample_ids).sc .pickup 1 (-1)).2.sysfs.writes =
      [("high_g_mode", 0x72)] ∧
    (bma250_motion_activate (boot sample_ids).sc .pickup 1 (-1)).2.select_worker.fd = -1 := by
  decide

/-- **C9 fails on the code.** From the static object, `bma250_motion_init` of
pickup with a failing probe returns -1 and constructs no worker, but leaves
pickup marked initialised; the following `bma250_motion_init` of significant,
whose probe succeeds, finds the worker unconstructed, returns 0 and still
constructs no worker. -/
theorem init_after_failed_probe_builds_no_worker :
    (bma250_motion sample_ids).select_worker.inits = 0 ∧
    (bma250_motion_init (bma250_motion sample_ids) .pickup (-1)).1 = -1 ∧
    (bma250_motion_init (bma250_motion sample_ids) .pickup (-1)).2.pickup.init = 1 ∧
    (bma250_motion_init (bma250_motion sample_ids) .pickup (-1)).2.select_worker.inits = 0 ∧
    (bma250_motion_init (bma250_motion_init (bma250_motion sample_ids) .pickup (-1)).2
      .significant 3).1 = 0 ∧
    (bma250_motion_init (bma250_motion_init (bma250_motion sample_ids) .pickup (-1)).2
      .significant 3).2.select_worker.inits = 0 := by
  decide

/-! ## Hardware mode codes -/

theorem mode_writes_eq (sc : bma250_motion_sensor_composition) (d : which) (enable : Int) :
    mode_writes sc d enable =
      if (get_desc sc d).sensor.type = SENSOR_TYPE_PICK_UP_GESTURE then
        [("high_g_mode", if enable ≠ 0 then 0x72 else 0x00)]
      else if (get_desc sc d).sensor.type = SENSOR_TYPE_SIGNIFICANT_MOTION then
        [("slope_mode", if enable ≠ 0 then 0x37 else 0x00)]
      else [] := by
  cases d <;>
    simp only [mode_writes, bma250_motion_internal_activate, get_desc, set_desc,
      sensors_sysfs_write_int] <;>
    split_ifs <;> simp

/-- **C10, as stated, fails.** The code written when enabling pickup is 0x72,
the one written when enabling significant is 0x37, and their bitwise AND is
0x32, not 0: the two bit patterns overlap. -/
theorem mode_codes_overlap :
    mode_writes (boot sample_ids).sc .pickup 1 = [("high_g_mode", 0x72)] ∧
    mode_writes (boot sample_ids).sc .significant 1 = [("slope_mode", 0x37)] ∧
    Int.land 0x72 0x37 = 0x32 ∧
    Int.land 0x72 0x37 ≠ 0 := by
  decide

/-- **C10, amended.** With the sensor types of the static initialiser,
`bma250_motion_internal_activate` writes, for every nonzero `enable`, the code
0x72 to `high_g_mode` for pickup and the code 0x37 to `slope_mode` for
significant, and nothing else; for `enable = 0` it writes 0 to the sensor's own
attribute and nothing else. The two attributes differ and the two enabled
codes differ, but their bit patterns overlap: the bitwise AND is 0x32. -/
theorem mode_codes_per_attribute (sc : bma250_motion_sensor_composition) (enable : Int)
    (hp : sc.pickup.sensor.type = SENSOR_TYPE_PICK_UP_GESTURE)
    (hs : sc.significant.sensor.type = SENSOR_TYPE_SIGNIFICANT_MOTION)
    (hen : enable ≠ 0) :
    mode_writes sc .pickup enable = [("high_g_mode", 0x72)] ∧
    mode_writes sc .significant enable = [("slope_mode", 0x37)] ∧
    mode_writes sc .pickup 0 = [("high_g_mode", 0)] ∧
    mode_writes sc .significant 0 = [("slope_mode", 0)] ∧
    "high_g_mode" ≠ "slope_mode" ∧
    (0x72 : Int) ≠ 0x37 ∧
    Int.land 0x72 0x37 = 0x32 := by
  have hne : ¬ SENSOR_TYPE_SIGNIFICANT_MOTION = SENSOR_TYPE_PICK_UP_GESTURE := by decide
  refine ⟨?_, ?_, ?_, ?_, by decide, by decide, by decide⟩
  · simp [mode_writes_eq, get_desc, hp, hen]
  · simp [mode_writes_eq, get_desc, hs, hne, hen]
  · simp [mode_writes_eq, get_desc, hp]
  · simp [mode_writes_eq, get_desc, hs, hne]

/-- Witness for the amended C10, in the state after boot. -/
theorem mode_codes_per_attribute_witness :
    mode_writes (boot sample_ids).sc .pickup 7 = [("high_g_mode", 0x72)] ∧
    mode_writes (boot sample_ids).sc .significant 7 = [("slope_mode", 0x37)] ∧
    mode_writes (boot sample_ids).sc .pickup 0 = [("high_g_mode", 0)] ∧
    mode_writes (boot sample_ids).sc .significant 0 = [("slope_mode", 0)] ∧
    "high_g_mode" ≠ "slope_mode" ∧
    (0x72 : Int) ≠ 0x37 ∧
    Int.land 0x72 0x37 = 0x32 :=
  mode_codes_per_attribute (boot sample_ids).sc 7 (by decide) (by decide) (by decide)

/-! ## The dispatch shim -/

/-- **C5.** `sensors_module_activate`: when the lookup of the handle finds no
entry the status is -1 and nothing changes, no driver operation is called;
when it finds an operation set, the sensor's `activate` is called exactly once
with the same `enabled` (the call log grows by that one call, the drivers are
in the state that one call leaves), and the status is -1 when that call
returns a negative status and 0 otherwise. -/
theorem module_activate_dispatch {σ : Type} (lookup : Int → Option (sensor_api_t σ))
    (handle enabled : Int) (w : hal_state σ) :
    (lookup handle = none →
      sensors_module_activate lookup handle enabled w = (-1, w)) ∧
    (∀ api, lookup handle = some api →
      (sensors_module_activate lookup handle enabled w).2.calls =
        w.calls ++ [(handle, .activate enabled)] ∧
      (sensors_module_activate lookup handle enabled w).2.drivers =
        (api.activate enabled w.drivers).2 ∧
      ((api.activate enabled w.drivers).1 < 0 →
        (sensors_module_activate lookup handle enabled w).1 = -1) ∧
      (¬ (api.activate enabled w.drivers).1 < 0 →
        (sensors_module_activate lookup handle enabled w).1 = 0)) := by
  refine ⟨?_, ?_⟩
  · intro h
    simp [sensors_module_activate, h]
  · intro api h
    simp only [sensors_module_activate, h, call_activate]
    refine ⟨?_, ?_, ?_, ?_⟩
    · split_ifs <;> rfl
    · split_ifs <;> rfl
    · intro hneg; rw [if_pos hneg]
    · intro hpos; rw [if_neg hpos]

/-- Witness for C5 with the motion driver in the registry: an unknown handle,
an activation whose open fails, and one whose open succeeds. -/
theorem module_activate_dispatch_witness :
    (sensors_module_activate (sample_lookup 5) 99 1
        ⟨(boot sample_ids).sc, []⟩).1 = -1 ∧
    (sensors_module_activate (sample_lookup (-1)) 21 1
        ⟨(boot sample_ids).sc, []⟩).1 = -1 ∧
    (sensors_module_activate (sample_lookup 5) 21 1
        ⟨(boot sample_ids).sc, []⟩).1 = 0 ∧
    (sensors_module_activate (sample_lookup 5) 21 1
        ⟨(boot sample_ids).sc, []⟩).2.calls = [(21, .activate 1)] :=
  ⟨congrArg Prod.fst
      ((module_activate_dispatch (sample_lookup 5) 99 1 ⟨(boot sample_ids).sc, []⟩).1 rfl),
    ((module_activate_dispatch (sample_lookup (-1)) 21 1 ⟨(boot sample_ids).sc, []⟩).2
      (bma250_motion_api .pickup (-1)) rfl).2.2.1 (by decide),
    ((module_activate_dispatch (sample_lookup 5) 21 1 ⟨(boot sample_ids).sc, []⟩).2
      (bma250_motion_api .pickup 5) rfl).2.2.2 (by decide),
    ((module_activate_dispatch (sample_lookup 5) 21 1 ⟨(boot sample_ids).sc, []⟩).2
      (bma250_motion_api .pickup 5) rfl).1⟩

/-- **C6.** `sensors_module_flush`: for a handle with a registry entry the
status is `-EINVAL` and nothing changes, no driver operation is called; for a
handle without entry the status is -1 and nothing changes; the two statuses
differ, and in both cases the status is negative: flush never succeeds. -/
theorem module_flush_unsupported {σ : Type} (lookup : Int → Option (sensor_api_t σ))
    (handle : Int) (w : hal_state σ) :
    (∀ api, lookup handle = some api →
      sensors_module_flush lookup handle w = (-EINVAL, w)) ∧
    (lookup handle = none → sensors_module_flush lookup handle w = (-1, w)) ∧
    -EINVAL ≠ -1 ∧
    (sensors_module_flush lookup handle w).1 < 0 ∧
    (sensors_module_flush lookup handle w).2.calls = w.calls := by
  refine ⟨?_, ?_, by decide, ?_, ?_⟩
  · intro api h
    simp [sensors_module_flush, h]
  · intro h
    simp [sensors_module_flush, h]
  · unfold sensors_module_flush
    cases lookup handle <;> simp [EINVAL]
  · unfold sensors_module_flush
    cases lookup handle <;> rfl

/-- Witness for C6 with the motion driver in the registry: a registered and
an unknown handle. -/
theorem module_flush_unsupported_witness :
    (sensors_module_flush (sample_lookup 5) 22 ⟨(boot sample_ids).sc, []⟩).1 = -22 ∧
    (sensors_module_flush (sample_lookup 5) 99 ⟨(boot sample_ids).sc, []⟩).1 = -1 :=
  ⟨congrArg Prod.fst
      ((module_flush_unsupported (sample_lookup 5) 22 ⟨(boot sample_ids).sc, []⟩).1
        (bma250_motion_api .significant 5) rfl),
    congrArg Prod.fst
      ((module_flush_unsupported (sample_lookup 5) 99 ⟨(boot sample_ids).sc, []⟩).2.1 rfl)⟩

end Dash
